import Mathlib

/-!
Verification of the todo-list boilerplate: the in-memory Store
(services/todos.ts), the MCP tool handlers (create-server.ts), and the
Express REST and protocol routes (index.ts).

Modelling conventions:
* The JS Map is an insertion-ordered association list; Map.set replaces
  the value of an existing key in place and otherwise appends.
* Date.now() is an effect; every read of the clock is passed to the
  embedded function as an explicit Nat argument (milliseconds).
* JS object fields of declared type string or boolean can nevertheless
  hold the value undefined at runtime (an object spread copies a key
  whose value is undefined).  The fields title and completed are
  therefore embedded as Option String and Option Bool, with none for
  the JS value undefined.  An update object is embedded with fields of
  type Option (Option _): the outer none means the key is absent from
  the object, some v means the key is present with JS value v.
* String length is the Lean codepoint count; JS measures UTF-16 units.
  The two agree on every string considered here.
-/

namespace TodoApp

/-- A todo record.  TS declares title : string and completed : boolean,
but at runtime a spread of an update object can store undefined in
either field, so both are embedded as Option with none for undefined.
createdAt and id are only ever written by createTodo and are always
defined. -/
structure Todo where
  id : String
  title : Option String
  completed : Option Bool
  createdAt : Nat
deriving DecidableEq, Repr

/-- The update object of updateTodo: Partial of title and completed.
Outer none = the key is absent from the object; some v = the key is
present with JS value v (inner none = the key holds undefined). -/
structure TodoUpdates where
  title : Option (Option String) := none
  completed : Option (Option Bool) := none
deriving DecidableEq, Repr

/-- The in-memory storage: a JS Map from id to Todo, embedded as an
insertion-ordered association list. -/
def Store : Type := List (String × Todo)

instance : DecidableEq Store := inferInstanceAs (DecidableEq (List (String × Todo)))

/-- JS truthiness of a possibly-undefined boolean: undefined is falsy. -/
def jsTruthy : Option Bool → Bool
  | none => false
  | some b => b

/-- Template-literal rendering of a possibly-undefined string. -/
def jsShowStr : Option String → String
  | none => "undefined"
  | some s => s

/-- The JS expression x || d for a possibly-undefined string x:
undefined and the empty string are falsy. -/
def jsOrElseStr (x : Option String) (d : String) : String :=
  match x with
  | none => d
  | some s => if s = "" then d else s

/-- Map.get: the value bound to a key, or undefined. -/
def mapGet (k : String) : Store → Option Todo
  | [] => none
  | (k2, v) :: rest => if k2 = k then some v else mapGet k rest

/-- Map.set: replace the value of an existing key in place, otherwise
append the new binding at the end (JS Maps keep insertion order). -/
def mapSet (k : String) (v : Todo) : Store → Store
  | [] => [(k, v)]
  | (k2, v2) :: rest =>
    if k2 = k then (k2, v) :: rest else (k2, v2) :: mapSet k v rest

/-- Map.delete: remove the binding of a key; the Bool reports whether a
binding was removed. -/
def mapDelete (k : String) : Store → Bool × Store
  | [] => (false, [])
  | (k2, v) :: rest =>
    if k2 = k then (true, rest)
    else
      let r := mapDelete k rest
      (r.1, (k2, v) :: r.2)

/-- Array.from of Map.values: the stored todos in insertion order. -/
def mapValues (s : Store) : List Todo := s.map Prod.snd

/-- Map.size. -/
def storeSize (s : Store) : Nat := s.length

/-- initializeSampleTodos from services/todos.ts: three fixed sample
todos set in order of ids 1, 2, 3; the three Date.now() reads are the
arguments t1 t2 t3. -/
def initializeSampleTodos (t1 t2 t3 : Nat) (s : Store) : Store :=
  let sampleTodos : List Todo :=
    [ { id := "1", title := some "Learn about MCP", completed := some false, createdAt := t1 },
      { id := "2", title := some "Build a ChatGPT app", completed := some false, createdAt := t2 },
      { id := "3", title := some "Deploy to Vercel", completed := some false, createdAt := t3 } ]
  sampleTodos.foldl (fun acc todo => mapSet todo.id todo acc) s

/-- The module-initialization store: initializeSampleTodos runs on the
empty map (todos.size === 0 on first import). -/
def initStore (t1 t2 t3 : Nat) : Store := initializeSampleTodos t1 t2 t3 []

/-- getAllTodos from services/todos.ts: Array.from(todos.values())
sorted by the comparator a.createdAt - b.createdAt, a stable ascending
sort on createdAt. -/
def getAllTodos (s : Store) : List Todo :=
  (mapValues s).mergeSort (fun a b => Nat.ble a.createdAt b.createdAt)

/-- getTodoById from services/todos.ts. -/
def getTodoById (id : String) (s : Store) : Option Todo := mapGet id s

/-- createTodo from services/todos.ts.  No validation is performed.
The two Date.now() reads are passed as tId (stringified into the id)
and tCreated (stored in createdAt). -/
def createTodo (tId tCreated : Nat) (title : String) (s : Store) : Todo × Store :=
  let id := toString tId
  let todo : Todo :=
    { id := id, title := some title, completed := some false, createdAt := tCreated }
  (todo, mapSet id todo s)

/-- updateTodo from services/todos.ts: the spread of updates over the
existing record.  A key absent from updates leaves the field; a key
present overwrites the field with its value, including undefined. -/
def updateTodo (id : String) (updates : TodoUpdates) (s : Store) : Option Todo × Store :=
  match mapGet id s with
  | none => (none, s)
  | some todo =>
    let updated : Todo :=
      { todo with
        title := updates.title.getD todo.title
        completed := updates.completed.getD todo.completed }
    (some updated, mapSet id updated s)

/-- deleteTodo from services/todos.ts. -/
def deleteTodo (id : String) (s : Store) : Bool × Store := mapDelete id s

/-- toggleTodo from services/todos.ts: update with the JS negation of
the stored completed value; the update object carries only the
completed key. -/
def toggleTodo (id : String) (s : Store) : Option Todo × Store :=
  match mapGet id s with
  | none => (none, s)
  | some todo =>
    updateTodo id { completed := some (some (!jsTruthy todo.completed)) } s

/-- The structuredContent object of a successful MCP tool result.  Each
tool populates todos plus at most one of the other keys; a key the tool
does not emit is none. -/
structure StructuredContent where
  todos : List Todo
  newTodo : Option Todo := none
  updatedTodo : Option Todo := none
  deletedId : Option String := none
deriving DecidableEq, Repr

/-- The result an MCP tool handler returns: the text content, the
isError flag (absent in JS on success, modelled as false), and the
structuredContent object when one is emitted. -/
structure ToolResult where
  text : String
  isError : Bool := false
  structuredContent : Option StructuredContent := none
deriving DecidableEq, Repr

/-- Pluralized count of todos, as in the template literals of
create-server.ts. -/
def todoCountText (n : Nat) : String :=
  toString n ++ " todo" ++ (if n = 1 then "" else "s")

/-- The todos.add_todo handler from create-server.ts.  The zod schema
requires a string title of length at least 1 and at most 200; parse
throws on violation (Except.error), before any store mutation.  On
success it creates the todo and returns the full list plus the new
todo.  The two Date.now() reads inside createTodo are tId tCreated. -/
def addTodoHandler (tId tCreated : Nat) (title : String) (s : Store) :
    Except String (ToolResult × Store) :=
  if title.length < 1 then .error "Title cannot be empty"
  else if 200 < title.length then .error "Title must be 200 characters or fewer"
  else
    let r := createTodo tId tCreated title s
    .ok
      ( { text := "Added to-do: \"" ++ title ++ "\"",
          structuredContent := some { todos := getAllTodos r.2, newTodo := some r.1 } },
        r.2 )

/-- The todos.toggle_todo handler from create-server.ts: toggleTodo,
then either the not-found error result (isError true, no
structuredContent) or the full list plus the updated todo. -/
def toggleTodoHandler (id : String) (s : Store) : ToolResult × Store :=
  match toggleTodo id s with
  | (none, s2) =>
    ( { text := "To-do item with ID \"" ++ id ++ "\" not found.", isError := true }, s2 )
  | (some updated, s2) =>
    ( { text := "To-do \"" ++ jsShowStr updated.title ++ "\" marked as "
          ++ (if jsTruthy updated.completed then "completed" else "incomplete") ++ ".",
        structuredContent := some { todos := getAllTodos s2, updatedTodo := some updated } },
      s2 )

/-- The todos.delete_todo handler from create-server.ts: getTodoById,
deleteTodo, then either the not-found error result or the full list
plus the deleted id; the text falls back to the id when the looked-up
title is falsy. -/
def deleteTodoHandler (id : String) (s : Store) : ToolResult × Store :=
  let todo := getTodoById id s
  let r := deleteTodo id s
  if r.1 then
    ( { text := "Deleted to-do: \""
          ++ jsOrElseStr (todo.map Todo.title |>.join) id ++ "\"",
        structuredContent := some { todos := getAllTodos r.2, deletedId := some id } },
      r.2 )
  else
    ( { text := "To-do item with ID \"" ++ id ++ "\" not found.", isError := true }, s )

/-- One element of the snapshot the save_todo_state schema accepts:
id, title, completed, createdAt, all required and typed. -/
structure SavedTodo where
  id : String
  title : String
  completed : Bool
  createdAt : Nat
deriving DecidableEq, Repr

/-- The todos.save_todo_state handler from create-server.ts: after the
schema parse it only reads getAllTodos and acknowledges; nothing is
written to the store. -/
def saveTodoStateHandler (todosToSave : List SavedTodo) (s : Store) : ToolResult × Store :=
  ( { text := "Saved " ++ todoCountText todosToSave.length ++ ".",
      structuredContent := some { todos := getAllTodos s } },
    s )

/-- A REST response from the /api/todos endpoints of index.ts. -/
inductive RestResult where
  | okTodo (t : Todo)
  | okSuccess
  | badRequest (error : String)
  | notFound (error : String)
deriving DecidableEq, Repr

/-- The POST /api/todos handler from index.ts.  The body title is
absent (none) or a string; a missing or empty title is falsy and is
rejected with 400; any other string, of any length, is passed straight
to createTodo.  (A non-string JSON body value is likewise rejected by
the typeof check and is not represented.) -/
def restPostTodos (tId tCreated : Nat) (title : Option String) (s : Store) :
    RestResult × Store :=
  match title with
  | none => (.badRequest "Title is required", s)
  | some t =>
    if t = "" then (.badRequest "Title is required", s)
    else
      let r := createTodo tId tCreated t s
      (.okTodo r.1, r.2)

/-- The body of PUT /api/todos/:id: each field is the destructured
req.body value, none when the key is absent from the JSON body. -/
structure PutBody where
  title : Option String := none
  completed : Option Bool := none
deriving DecidableEq, Repr

/-- The PUT /api/todos/:id handler from index.ts: it always calls
updateTodo with an object carrying both keys title and completed, even
when the corresponding body field is undefined. -/
def restPutTodo (id : String) (body : PutBody) (s : Store) : RestResult × Store :=
  match updateTodo id { title := some body.title, completed := some body.completed } s with
  | (none, s2) => (.notFound "Todo not found", s2)
  | (some updated, s2) => (.okTodo updated, s2)

/-- The DELETE /api/todos/:id handler from index.ts. -/
def restDeleteTodo (id : String) (s : Store) : RestResult × Store :=
  let r := deleteTodo id s
  if r.1 then (.okSuccess, r.2) else (.notFound "Todo not found", s)

/-- An HTTP request method. -/
inductive HttpMethod where
  | get | post | put | del | patch | options | head
deriving DecidableEq, Repr

/-- Where a request to the path /mcp ends up in the Express app of
index.ts. -/
inductive McpRouteResult where
  /-- POST /mcp is delegated to transport.handleRequest. -/
  | handleMcp
  /-- The methodNotAllowed handler: HTTP status 405 with the JSON-RPC
  envelope jsonrpc 2.0, the given error code and message, id null. -/
  | methodNotAllowed (status : Nat) (code : Int) (message : String)
  /-- OPTIONS requests are answered by the cors middleware. -/
  | corsPreflight
  /-- No route matches; Express falls through to its default 404. -/
  | expressNotFound
deriving DecidableEq, Repr

/-- The routing of /mcp in index.ts: app.post delegates to the
transport; app.get and app.delete are bound to methodNotAllowed (an
Express get route also answers HEAD); app.options star is handled by
cors; every other method has no route. -/
def routeMcp : HttpMethod → McpRouteResult
  | .post => .handleMcp
  | .get => .methodNotAllowed 405 (-32000) "Method not allowed."
  | .del => .methodNotAllowed 405 (-32000) "Method not allowed."
  | .head => .methodNotAllowed 405 (-32000) "Method not allowed."
  | .options => .corsPreflight
  | .put => .expressNotFound
  | .patch => .expressNotFound

/-- A concrete title of 201 characters, used to probe the upper length
bound. -/
def title201 : String := String.mk (List.replicate 201 'a')

/-! Lemmas about the Map primitives. -/

theorem mapGet_mapSet_self (k : String) (v : Todo) (s : Store) :
    mapGet k (mapSet k v s) = some v := by
  induction s with
  | nil => simp [mapGet, mapSet]
  | cons hd tl ih =>
    obtain ⟨k2, v2⟩ := hd
    by_cases h : k2 = k
    · simp [mapSet, mapGet, h]
    · simp [mapSet, mapGet, h, ih]

theorem mapGet_mapSet_ne (k k2 : String) (v : Todo) (s : Store) (h : k2 ≠ k) :
    mapGet k (mapSet k2 v s) = mapGet k s := by
  induction s with
  | nil => simp [mapGet, mapSet, h]
  | cons hd tl ih =>
    obtain ⟨k3, v3⟩ := hd
    by_cases h3 : k3 = k2
    · subst h3
      simp [mapSet, mapGet, h]
    · simp [mapSet, mapGet, h3, ih]

theorem length_mapSet_fresh (k : String) (v : Todo) (s : Store) (h : mapGet k s = none) :
    (mapSet k v s).length = s.length + 1 := by
  induction s with
  | nil => simp [mapSet]
  | cons hd tl ih =>
    obtain ⟨k2, v2⟩ := hd
    by_cases h2 : k2 = k
    · simp [mapGet, h2] at h
    · simp [mapGet, h2] at h
      simp [mapSet, h2, ih h]

theorem mapSet_mapSet_same (k : String) (v w : Todo) (s : Store) :
    mapSet k w (mapSet k v s) = mapSet k w s := by
  induction s with
  | nil => simp [mapSet]
  | cons hd tl ih =>
    obtain ⟨k2, v2⟩ := hd
    by_cases h2 : k2 = k
    · simp [mapSet, h2]
    · simp [mapSet, h2, ih]

theorem mapSet_get_self (k : String) (v : Todo) (s : Store) (h : mapGet k s = some v) :
    mapSet k v s = s := by
  induction s with
  | nil => simp [mapGet] at h
  | cons hd tl ih =>
    obtain ⟨k2, v2⟩ := hd
    by_cases h2 : k2 = k
    · simp [mapGet, h2] at h
      simp [mapSet, h2, h]
    · simp [mapGet, h2] at h
      simp [mapSet, h2, ih h]

theorem mapDelete_absent (k : String) (s : Store) (h : mapGet k s = none) :
    mapDelete k s = (false, s) := by
  induction s with
  | nil => simp [mapDelete]
  | cons hd tl ih =>
    obtain ⟨k2, v2⟩ := hd
    by_cases h2 : k2 = k
    · simp [mapGet, h2] at h
    · simp [mapGet, h2] at h
      simp [mapDelete, h2, ih h]

/-! Lemmas about getAllTodos. -/

theorem getAllTodos_pairwise (s : Store) :
    List.Pairwise (fun a b => a.createdAt ≤ b.createdAt) (getAllTodos s) := by
  have htrans : ∀ a b c : Todo,
      Nat.ble a.createdAt b.createdAt = true → Nat.ble b.createdAt c.createdAt = true →
      Nat.ble a.createdAt c.createdAt = true := by
    intro a b c hab hbc
    simp [Nat.ble_eq] at *
    omega
  have htotal : ∀ a b : Todo,
      (Nat.ble a.createdAt b.createdAt || Nat.ble b.createdAt a.createdAt) = true := by
    intro a b
    simp [Nat.ble_eq]
    omega
  have hs := List.sorted_mergeSort htrans htotal (mapValues s)
  exact hs.imp (fun h => Nat.le_of_ble_eq_true h)

theorem getAllTodos_perm (s : Store) : (getAllTodos s).Perm (mapValues s) :=
  List.mergeSort_perm (mapValues s) _

theorem getAllTodos_length (s : Store) : (getAllTodos s).length = storeSize s := by
  have h := @List.length_mergeSort Todo (fun a b => Nat.ble a.createdAt b.createdAt)
    (mapValues s)
  simp only [getAllTodos, mapValues, storeSize] at *
  simp [h]

/-! Claim theorems. -/

/-- C1 counterexample: two createTodo calls that read the same clock
value (millisecond 100) produce the same id, so the second insert
overwrites the first: starting from the three sample todos, after both
calls the store holds 4 entries instead of 5 and the todo returned by
the first call is no longer in the store.  This refutes the claim that
create always assigns an id distinct from every id in the store. -/
theorem claim_C1_counterexample :
    (createTodo 100 100 "A" (initStore 10 20 30)).1.title = some "A" ∧
    storeSize (createTodo 100 100 "B" (createTodo 100 100 "A" (initStore 10 20 30)).2).2
      = storeSize (initStore 10 20 30) + 1 ∧
    ¬ (createTodo 100 100 "A" (initStore 10 20 30)).1 ∈
        mapValues (createTodo 100 100 "B" (createTodo 100 100 "A" (initStore 10 20 30)).2).2 := by
  decide

/-- C1 (amended): createTodo takes its id from the millisecond clock
with no freshness check.  Provided the two creates read clock values
whose decimal strings differ from each other and from every id already
in the store, both created todos are present afterwards, their ids are
distinct, and the store grew by exactly two entries. -/
theorem claim_C1_amended (t1 c1 t2 c2 : Nat) (a b : String) (s : Store)
    (h1 : mapGet (toString t1) s = none)
    (h2 : mapGet (toString t2) s = none)
    (hne : toString t1 ≠ toString t2) :
    getTodoById (toString t1) (createTodo t2 c2 b (createTodo t1 c1 a s).2).2
      = some (createTodo t1 c1 a s).1 ∧
    getTodoById (toString t2) (createTodo t2 c2 b (createTodo t1 c1 a s).2).2
      = some (createTodo t2 c2 b (createTodo t1 c1 a s).2).1 ∧
    (createTodo t1 c1 a s).1.id ≠ (createTodo t2 c2 b (createTodo t1 c1 a s).2).1.id ∧
    storeSize (createTodo t2 c2 b (createTodo t1 c1 a s).2).2 = storeSize s + 2 := by
  refine ⟨?_, ?_, hne, ?_⟩
  · show mapGet (toString t1) (mapSet (toString t2) _ (mapSet (toString t1) _ s)) = _
    rw [mapGet_mapSet_ne (toString t1) (toString t2) _ _ (Ne.symm hne)]
    exact mapGet_mapSet_self (toString t1) _ s
  · exact mapGet_mapSet_self (toString t2) _ _
  · show (mapSet (toString t2) _ (mapSet (toString t1) _ s)).length = s.length + 2
    have hfresh2 : mapGet (toString t2) (mapSet (toString t1)
        { id := toString t1, title := some a, completed := some false,
          createdAt := c1 } s) = none := by
      rw [mapGet_mapSet_ne (toString t2) (toString t1) _ _ hne]
      exact h2
    rw [length_mapSet_fresh (toString t2) _ _ hfresh2,
      length_mapSet_fresh (toString t1) _ _ h1]

/-- C1 witness: the amended theorem applied at clock values 100 and 101
over the sample store. -/
theorem claim_C1_witness :
    getTodoById (toString 100)
        (createTodo 101 101 "B" (createTodo 100 100 "A" (initStore 10 20 30)).2).2
      = some (createTodo 100 100 "A" (initStore 10 20 30)).1 ∧
    getTodoById (toString 101)
        (createTodo 101 101 "B" (createTodo 100 100 "A" (initStore 10 20 30)).2).2
      = some (createTodo 101 101 "B" (createTodo 100 100 "A" (initStore 10 20 30)).2).1 ∧
    (createTodo 100 100 "A" (initStore 10 20 30)).1.id
      ≠ (createTodo 101 101 "B" (createTodo 100 100 "A" (initStore 10 20 30)).2).1.id ∧
    storeSize (createTodo 101 101 "B" (createTodo 100 100 "A" (initStore 10 20 30)).2).2
      = storeSize (initStore 10 20 30) + 2 :=
  claim_C1_amended 100 100 101 101 "A" "B" (initStore 10 20 30)
    (by decide) (by decide) (by decide)

/-- C2 counterexample: through the REST POST /api/todos handler a title
of 201 characters is accepted, a todo is created, and the store grows
by one entry, refuting the claim that every title longer than 200
characters fails with a validation error leaving the store size
unchanged. -/
theorem claim_C2_counterexample :
    title201.length = 201 ∧
    (restPostTodos 100 101 (some title201) (initStore 10 20 30)).1 =
      RestResult.okTodo
        { id := "100", title := some title201, completed := some false, createdAt := 101 } ∧
    storeSize (restPostTodos 100 101 (some title201) (initStore 10 20 30)).2 =
      storeSize (initStore 10 20 30) + 1 := by
  refine ⟨by rfl, by rfl, by rfl⟩

/-- C2 (amended): the MCP todos.add_todo handler rejects the empty
title and any title longer than 200 characters by throwing a schema
error before any store mutation, and succeeds for every title of
length 1 to 200, in which case the store becomes the createTodo
result; the REST POST /api/todos handler, however, only rejects a
missing or empty title and passes every other string, of any length,
to createTodo.  Store.createTodo itself performs no validation. -/
theorem claim_C2_amended (tId tCreated : Nat) (title : String) (s : Store) :
    (title.length = 0 →
      addTodoHandler tId tCreated title s = Except.error "Title cannot be empty") ∧
    (200 < title.length →
      addTodoHandler tId tCreated title s =
        Except.error "Title must be 200 characters or fewer") ∧
    (1 ≤ title.length → title.length ≤ 200 →
      ∃ r, addTodoHandler tId tCreated title s =
        Except.ok (r, (createTodo tId tCreated title s).2)) ∧
    (title ≠ "" →
      restPostTodos tId tCreated (some title) s =
        (RestResult.okTodo (createTodo tId tCreated title s).1,
         (createTodo tId tCreated title s).2)) := by
  refine ⟨?_, ?_, ?_, ?_⟩
  · intro h
    simp [addTodoHandler, h]
  · intro h
    have h1 : ¬ title.length < 1 := by omega
    simp [addTodoHandler, h1, h]
  · intro h1 h2
    have h3 : ¬ title.length < 1 := by omega
    have h4 : ¬ 200 < title.length := by omega
    refine ⟨{ text := "Added to-do: \"" ++ title ++ "\"",
              structuredContent := some
                { todos := getAllTodos (createTodo tId tCreated title s).2,
                  newTodo := some (createTodo tId tCreated title s).1 } }, ?_⟩
    simp [addTodoHandler, h3, h4]
  · intro h
    simp [restPostTodos, h]

/-- C2 witness: the amended theorem applied over the sample store to
the empty title (rejected) and to a short title (accepted, store
becomes the createTodo result). -/
theorem claim_C2_witness :
    addTodoHandler 100 101 "" (initStore 10 20 30) =
      Except.error "Title cannot be empty" ∧
    (∃ r, addTodoHandler 100 101 "Buy milk" (initStore 10 20 30) =
      Except.ok (r, (createTodo 100 101 "Buy milk" (initStore 10 20 30)).2)) :=
  ⟨(claim_C2_amended 100 101 "" (initStore 10 20 30)).1 rfl,
   (claim_C2_amended 100 101 "Buy milk" (initStore 10 20 30)).2.2.1
     (by decide) (by decide)⟩

/-- C3: the REST PUT /api/todos/:id handler always passes an object
carrying both keys title and completed to updateTodo, so a body that
omits title stores undefined in it: at the failing input (id 1, body
with only completed true) the stored title Learn about MCP is lost,
contradicting the claim that omitted fields retain their prior value.
The same call through a Store-level update object that genuinely omits
the title key (as toggleTodo builds it) does retain the title, which
locates the slip in the REST handler, not in updateTodo. -/
theorem claim_C3_failing_eval :
    getTodoById "1" (initStore 10 20 30) =
      some { id := "1", title := some "Learn about MCP", completed := some false,
             createdAt := 10 } ∧
    (restPutTodo "1" { completed := some true } (initStore 10 20 30)).1 =
      RestResult.okTodo
        { id := "1", title := none, completed := some true, createdAt := 10 } ∧
    getTodoById "1" (restPutTodo "1" { completed := some true } (initStore 10 20 30)).2 =
      some { id := "1", title := none, completed := some true, createdAt := 10 } ∧
    (updateTodo "1" { completed := some (some true) } (initStore 10 20 30)).1 =
      some { id := "1", title := some "Learn about MCP", completed := some true,
             createdAt := 10 } ∧
    (updateTodo "unknownId" { title := some (some "x") } (initStore 10 20 30)) =
      (none, initStore 10 20 30) := by
  refine ⟨by decide, by decide, by decide, by decide, by decide⟩

/-- C4 counterexample: a PUT request to /mcp matches no route and falls
through to the Express default 404; it does not receive the fixed
method-not-allowed envelope, refuting the claim that every method
other than POST gets that envelope. -/
theorem claim_C4_counterexample :
    routeMcp HttpMethod.put = McpRouteResult.expressNotFound ∧
    routeMcp HttpMethod.put ≠
      McpRouteResult.methodNotAllowed 405 (-32000) "Method not allowed." := by
  refine ⟨rfl, by decide⟩

/-- C4 (amended): POST /mcp is delegated to the protocol transport;
GET and DELETE (and HEAD, which an Express get route also answers) on
/mcp return the fixed method-not-allowed envelope with HTTP status 405
and the reserved code -32000; OPTIONS is answered by the CORS
middleware; the remaining methods (PUT, PATCH) match no route and fall
through to the Express default 404. -/
theorem claim_C4_amended :
    routeMcp HttpMethod.post = McpRouteResult.handleMcp ∧
    routeMcp HttpMethod.get =
      McpRouteResult.methodNotAllowed 405 (-32000) "Method not allowed." ∧
    routeMcp HttpMethod.del =
      McpRouteResult.methodNotAllowed 405 (-32000) "Method not allowed." ∧
    routeMcp HttpMethod.head =
      McpRouteResult.methodNotAllowed 405 (-32000) "Method not allowed." ∧
    routeMcp HttpMethod.options = McpRouteResult.corsPreflight ∧
    routeMcp HttpMethod.put = McpRouteResult.expressNotFound ∧
    routeMcp HttpMethod.patch = McpRouteResult.expressNotFound :=
  ⟨rfl, rfl, rfl, rfl, rfl, rfl, rfl⟩

/-- C5: for every snapshot accepted by the save_todo_state schema and
every store, the handler returns the store unchanged (it adds, removes
and modifies nothing), is not an error, acknowledges with the saved
count, and reports the current server-side list. -/
theorem claim_C5 (input : List SavedTodo) (s : Store) :
    (saveTodoStateHandler input s).2 = s ∧
    (saveTodoStateHandler input s).1.isError = false ∧
    (saveTodoStateHandler input s).1.text =
      "Saved " ++ todoCountText input.length ++ "." ∧
    (saveTodoStateHandler input s).1.structuredContent =
      some { todos := getAllTodos s } :=
  ⟨rfl, rfl, rfl, rfl⟩

/-- C6: toggleTodo on an absent id returns the not-found signal with
the store untouched; on a present id whose completed field holds the
boolean b, one toggle returns the todo with completed flipped to not b
and a second toggle returns the original todo and restores the store
exactly. -/
theorem claim_C6 (id : String) (s : Store) :
    (mapGet id s = none → toggleTodo id s = (none, s)) ∧
    (∀ t b, mapGet id s = some t → t.completed = some b →
      (toggleTodo id s).1 = some { t with completed := some (!b) } ∧
      toggleTodo id (toggleTodo id s).2 = (some t, s)) := by
  constructor
  · intro h
    simp [toggleTodo, h]
  · intro t b hget hc
    obtain ⟨tid, ttitle, tcomp, tca⟩ := t
    have hc2 : tcomp = some b := hc
    subst hc2
    have h1 : toggleTodo id s =
        (some { id := tid, title := ttitle, completed := some (!b), createdAt := tca },
         mapSet id { id := tid, title := ttitle, completed := some (!b), createdAt := tca } s) := by
      simp [toggleTodo, hget, updateTodo, jsTruthy]
    refine ⟨by rw [h1], ?_⟩
    rw [h1]
    have hget2 := mapGet_mapSet_self id
      { id := tid, title := ttitle, completed := some (!b), createdAt := tca } s
    have h2 : toggleTodo id
        (mapSet id { id := tid, title := ttitle, completed := some (!b), createdAt := tca } s) =
        (some { id := tid, title := ttitle, completed := some b, createdAt := tca },
         mapSet id { id := tid, title := ttitle, completed := some b, createdAt := tca }
           (mapSet id { id := tid, title := ttitle, completed := some (!b), createdAt := tca } s)) := by
      simp [toggleTodo, hget2, updateTodo, jsTruthy]
    rw [h2, mapSet_mapSet_same, mapSet_get_self id _ s hget]

/-- C6 witness: over the sample store, toggling the unknown id zzz is a
no-op returning the not-found signal, and toggling id 1 twice flips
completed to true and then restores the original todo and store. -/
theorem claim_C6_witness :
    toggleTodo "zzz" (initStore 10 20 30) = (none, initStore 10 20 30) ∧
    (toggleTodo "1" (initStore 10 20 30)).1 =
      some { id := "1", title := some "Learn about MCP", completed := some true,
             createdAt := 10 } ∧
    toggleTodo "1" (toggleTodo "1" (initStore 10 20 30)).2 =
      (some { id := "1", title := some "Learn about MCP", completed := some false,
              createdAt := 10 }, initStore 10 20 30) := by
  refine ⟨(claim_C6 "zzz" (initStore 10 20 30)).1 (by decide), ?_, ?_⟩
  · exact ((claim_C6 "1" (initStore 10 20 30)).2
      { id := "1", title := some "Learn about MCP", completed := some false, createdAt := 10 }
      false (by decide) rfl).1
  · exact ((claim_C6 "1" (initStore 10 20 30)).2
      { id := "1", title := some "Learn about MCP", completed := some false, createdAt := 10 }
      false (by decide) rfl).2

/-- C7: on an id absent from the store, both the todos.toggle_todo and
the todos.delete_todo handlers return a handler-level error result
(isError true) with the descriptive not-found message and no
structuredContent, and the store is unchanged. -/
theorem claim_C7 (id : String) (s : Store) (h : mapGet id s = none) :
    toggleTodoHandler id s =
      ({ text := "To-do item with ID \"" ++ id ++ "\" not found.",
         isError := true, structuredContent := none }, s) ∧
    deleteTodoHandler id s =
      ({ text := "To-do item with ID \"" ++ id ++ "\" not found.",
         isError := true, structuredContent := none }, s) := by
  constructor
  · simp [toggleTodoHandler, toggleTodo, h]
  · simp [deleteTodoHandler, deleteTodo, mapDelete_absent id s h]

/-- C7 witness: the theorem applied to the unknown id zzz over the
sample store. -/
theorem claim_C7_witness :
    toggleTodoHandler "zzz" (initStore 10 20 30) =
      ({ text := "To-do item with ID \"zzz\" not found.",
         isError := true, structuredContent := none }, initStore 10 20 30) ∧
    deleteTodoHandler "zzz" (initStore 10 20 30) =
      ({ text := "To-do item with ID \"zzz\" not found.",
         isError := true, structuredContent := none }, initStore 10 20 30) :=
  claim_C7 "zzz" (initStore 10 20 30) (by decide)

/-- C8: for every store, getAllTodos is sorted ascending by createdAt,
is a permutation of the stored values (so it returns all todos and, as
a total function, never fails), and is empty exactly when the store is
empty. -/
theorem claim_C8 (s : Store) :
    List.Pairwise (fun a b => a.createdAt ≤ b.createdAt) (getAllTodos s) ∧
    (getAllTodos s).Perm (mapValues s) ∧
    (getAllTodos s = [] ↔ s = []) ∧
    (getAllTodos s).length = storeSize s := by
  refine ⟨getAllTodos_pairwise s, getAllTodos_perm s, ?_, getAllTodos_length s⟩
  constructor
  · intro h
    have h2 := getAllTodos_length s
    rw [h] at h2
    have h3 : s.length = 0 := by
      simpa [storeSize] using h2.symm
    exact List.length_eq_zero.mp h3
  · intro h
    subst h
    simp [getAllTodos, mapValues]

/-- C9: creating a todo with a valid title (length 1 to 200) and then
looking up the returned id yields exactly the created todo, whose
title is the given one, whose completed is false, and whose createdAt
is at least any clock value t0 read before the call (the clock being
nondecreasing). -/
theorem claim_C9 (t0 tId tCreated : Nat) (title : String) (s : Store)
    (_hlen1 : 1 ≤ title.length) (_hlen2 : title.length ≤ 200)
    (hclock : t0 ≤ tCreated) :
    getTodoById (createTodo tId tCreated title s).1.id (createTodo tId tCreated title s).2
      = some (createTodo tId tCreated title s).1 ∧
    (createTodo tId tCreated title s).1.title = some title ∧
    (createTodo tId tCreated title s).1.completed = some false ∧
    t0 ≤ (createTodo tId tCreated title s).1.createdAt := by
  refine ⟨?_, rfl, rfl, hclock⟩
  exact mapGet_mapSet_self (toString tId) _ s

/-- C9 witness: the theorem applied to the title Buy milk at clock
values 50 before and 100 during the call, over the sample store. -/
theorem claim_C9_witness :
    getTodoById (createTodo 100 100 "Buy milk" (initStore 10 20 30)).1.id
        (createTodo 100 100 "Buy milk" (initStore 10 20 30)).2
      = some (createTodo 100 100 "Buy milk" (initStore 10 20 30)).1 ∧
    (createTodo 100 100 "Buy milk" (initStore 10 20 30)).1.title = some "Buy milk" ∧
    (createTodo 100 100 "Buy milk" (initStore 10 20 30)).1.completed = some false ∧
    50 ≤ (createTodo 100 100 "Buy milk" (initStore 10 20 30)).1.createdAt :=
  claim_C9 50 100 100 "Buy milk" (initStore 10 20 30)
    (by decide) (by decide) (by decide)

/-- C10: before any operation runs, the module-initialization store
already holds exactly the three sample todos with ids 1, 2 and 3, each
with completed false, so getAllTodos on the untouched store has three
elements and is never empty. -/
theorem claim_C10 (t1 t2 t3 : Nat) :
    storeSize (initStore t1 t2 t3) = 3 ∧
    getTodoById "1" (initStore t1 t2 t3) =
      some { id := "1", title := some "Learn about MCP", completed := some false,
             createdAt := t1 } ∧
    getTodoById "2" (initStore t1 t2 t3) =
      some { id := "2", title := some "Build a ChatGPT app", completed := some false,
             createdAt := t2 } ∧
    getTodoById "3" (initStore t1 t2 t3) =
      some { id := "3", title := some "Deploy to Vercel", completed := some false,
             createdAt := t3 } ∧
    (getAllTodos (initStore t1 t2 t3)).length = 3 ∧
    getAllTodos (initStore t1 t2 t3) ≠ [] := by
  have hsize : storeSize (initStore t1 t2 t3) = 3 := rfl
  refine ⟨hsize, rfl, rfl, rfl, ?_, ?_⟩
  · rw [getAllTodos_length, hsize]
  · intro h
    have h2 := getAllTodos_length (initStore t1 t2 t3)
    rw [h, hsize] at h2
    simp at h2

end TodoApp
